import Mathlib

/-!
Verification of the pestbot backend (src/main.py) retrieval-augmented
lookup and prompt-assembly pipeline, shallowly embedded in Lean.

The Knowledge Base is a `List String`; Python strings are Lean `String`s,
and the Python builtins used by the source (`str.lower`, `str.split`,
the substring test `in`) are modelled character-by-character below.
The external Groq call is modelled as an oracle giving the outcome of
the n-th attempted call, so that "the call is made exactly once" is
expressible.
-/

namespace PestBot

/-- Model of Python's substring test helper: `needle` appears at the start
of `hay`. -/
def listStartsWith : List Char → List Char → Bool
  | [], _ => true
  | _ :: _, [] => false
  | a :: as, b :: bs => a == b && listStartsWith as bs

/-- `containsSub needle hay`: `needle` occurs as a contiguous sublist of
`hay`. -/
def containsSub (needle : List Char) : List Char → Bool
  | [] => needle.isEmpty
  | c :: rest => listStartsWith needle (c :: rest) || containsSub needle rest

/-- Model of Python's `word in line` substring operator on strings. -/
def pyIn (needle hay : String) : Bool :=
  containsSub needle.toList hay.toList

/-- Model of Python's `str.lower()` (ASCII case folding, per-character). -/
def pyLower (s : String) : String :=
  String.mk (s.toList.map Char.toLower)

/-- Drop leading whitespace characters. -/
def dropWS : List Char → List Char
  | [] => []
  | c :: rest => if c.isWhitespace then dropWS rest else c :: rest

/-- Model of Python's `str.strip()` with no arguments: remove leading and
trailing whitespace. -/
def pyStrip (s : String) : String :=
  String.mk ((dropWS ((dropWS s.toList).reverse)).reverse)

/-- Helper for `pyLines`: split a character list at newlines, `acc` holds
the current line reversed. -/
def pyLinesAux : List Char → List Char → List (List Char)
  | [], acc => [acc.reverse]
  | c :: rest, acc =>
    if c = '\n' then acc.reverse :: pyLinesAux rest []
    else pyLinesAux rest (c :: acc)

/-- Model of Python's iteration over the lines of a text file: split the
content at `'\n'`.  (Python keeps the newline on each yielded line and
yields no empty final line after a trailing newline; since the loader
strips every line and drops the empty ones, splitting at `'\n'` is an
equivalent model.) -/
def pyLines (s : String) : List String :=
  (pyLinesAux s.toList []).map String.mk

/-- Helper for `pySplit`: walk the characters, `acc` holds the current word
reversed; whitespace ends a word, runs of whitespace produce nothing. -/
def pySplitAux : List Char → List Char → List String
  | [], acc => if acc.isEmpty then [] else [String.mk acc.reverse]
  | c :: rest, acc =>
    if c.isWhitespace then
      if acc.isEmpty then pySplitAux rest []
      else String.mk acc.reverse :: pySplitAux rest []
    else pySplitAux rest (c :: acc)

/-- Model of Python's `str.split()` with no arguments: split on runs of
whitespace, discarding empty pieces. -/
def pySplit (s : String) : List String :=
  pySplitAux s.toList []

/-- Model of Python's slice `s[:n]`: the first `n` characters of `s` (all
of `s` when it is shorter). -/
def pyTake (n : Nat) (s : String) : String :=
  String.mk (s.toList.take n)

/-- main.py lines 78-79: `any(word in line.lower() for word in q.split())`
with `words = q.split()` precomputed (the generator recomputes the same
list each iteration). -/
def matchesQuery (words : List String) (line : String) : Bool :=
  words.any (fun word => pyIn word (pyLower line))

/-- main.py lines 77-82: the `results` accumulation loop of
`retrieve_relevant_chunks`.  Each iteration appends `line` when it
matches, then breaks as soon as `len(results) >= limit`. -/
def retrieveAux (words : List String) (limit : Nat) : List String → List String → List String
  | results, [] => results
  | results, line :: rest =>
    let results2 := if matchesQuery words line then results ++ [line] else results
    if limit ≤ results2.length then results2 else retrieveAux words limit results2 rest

/-- The list of lines collected by `retrieve_relevant_chunks` before the
final join (main.py lines 76-82): `q = query.lower()` then the scan loop
over the Knowledge Base `kb`. -/
def retrieve_results (kb : List String) (query : String) (limit : Nat) : List String :=
  retrieveAux (pySplit (pyLower query)) limit [] kb

/-- main.py lines 74-83, `retrieve_relevant_chunks(query, limit=5)`:
`"\n".join(results) if results else ""`.  The Python default `limit=5`
is written explicitly at each call site below. -/
def retrieve_relevant_chunks (kb : List String) (query : String) (limit : Nat) : String :=
  let results := retrieve_results kb query limit
  if results.isEmpty then "" else String.intercalate "\n" results

/-- main.py lines 42-47: the fixed system persona (a triple-quoted Python
string, so it begins and ends with a newline). -/
def PESTBOT_SYSTEM_PROMPT : String :=
  "\nYou are Pest Bot, an advanced agricultural AI assistant.\nYou can identify pests and diseases from text, voice, or images,\nand provide chemical and organic treatment and prevention guidance.\nAlways answer clearly, practically, and based on scientific context.\n"

/-- A file found in the `data` folder, as the loader in main.py lines
56-69 sees it: a `.csv` file that parses into these rows, a `.txt` file
with this text content, a file of any other extension (ignored), or a
file whose read raises (caught, logged and skipped). -/
inductive DataFile
  | csv (rows : List (List String))
  | txt (content : String)
  | other
  | failing

/-- main.py lines 58-67: the Knowledge Lines contributed by one file.
A `.csv` row becomes `" ".join(row)`; a `.txt` file contributes each
line whose strip is non-empty, stripped; other extensions contribute
nothing; a failing read is caught (line 68) and contributes nothing. -/
def loadDataFile : DataFile → List String
  | DataFile.csv rows => rows.map (fun row => String.intercalate " " row)
  | DataFile.txt content =>
      ((pyLines content).map pyStrip).filter (fun l => l ≠ "")
  | DataFile.other => []
  | DataFile.failing => []

/-- main.py lines 52-71: `RAG_KB` as built at import time.  If the
`data` folder exists, every listed file contributes its lines in
listing order; otherwise the base stays empty (only a warning is
printed). -/
def loadRAG (dataFolderExists : Bool) (files : List DataFile) : List String :=
  if dataFolderExists then (files.map loadDataFile).flatten else []

/-- main.py lines 26-36 and 52-71: process startup.  The resolved Groq
key (environment variable or the `config/groq_key.txt` fallback) is
`none` when neither source provides one, in which case startup raises
`RuntimeError` (line 33); otherwise the process starts with the loaded
Knowledge Base. -/
def startup (groq_api_key : Option String) (dataFolderExists : Bool)
    (files : List DataFile) : Except String (List String) :=
  match groq_api_key with
  | none => Except.error "GROQ_API_KEY not found — please add it in Render environment variables."
  | some _ => Except.ok (loadRAG dataFolderExists files)

/-- main.py lines 91-95: the `final_prompt` f-string of `ask_groq`,
three concatenated pieces. -/
def final_prompt (user_input rag_context : String) : String :=
  ("User Question:\n" ++ user_input ++ "\n\n") ++
  ("Dataset Context:\n" ++ rag_context ++ "\n\n") ++
  "Answer as Pest Bot:"

/-- main.py lines 100-103: the messages list handed to the Groq client:
the persona as the system message, the final prompt as the user
message. -/
def groq_messages (system_prompt fp : String) : List (String × String) :=
  [("system", system_prompt), ("user", fp)]

/-- The outcome of the n-th attempted call to the external Groq client,
given the system message and the user message it would receive:
`Except.ok answer` for a normal response, `Except.error e` when the call
raises with message `e`. -/
def LLMOracle : Type := Nat → String → String → Except String String

/-- main.py lines 89-108, `ask_groq`: build the final prompt, make one
call to the client (attempt 0), return `response.choices[0].message.content.strip()`
on success; on any exception raise `HTTPException(500, "Groq API error: ...")`,
modelled as `Except.error (500, ...)`. -/
def ask_groq (llm : LLMOracle) (system_prompt user_input rag_context : String) :
    Except (Nat × String) String :=
  match llm 0 system_prompt (final_prompt user_input rag_context) with
  | Except.ok ans => Except.ok (pyStrip ans)
  | Except.error e => Except.error (500, "Groq API error: " ++ e)

/-- Python `str(HTTPException(status, detail))` (Starlette), used when the
chat handler's blanket `except` stringifies a caught `HTTPException`:
`"{status_code}: {detail}"`. -/
def httpExceptionStr (status : Nat) (detail : String) : String :=
  toString status ++ ": " ++ detail

/-- What the `/chat` endpoint sends back: a JSON reply on success, or an
`HTTPException(status, detail)` surfaced by FastAPI. -/
inductive ChatResponse
  | reply (answer : String)
  | httpError (status : Nat) (detail : String)
deriving DecidableEq

/-- main.py lines 127-156, the `/chat` handler, given the message the
body parsing produced (`none` when no `message`/`prompt` field was
found, mirroring Python's `message = None`).  `if not message` is true
for `None` and for the empty string.  Every `raise` inside the `try`
block — including the `HTTPException(400, "No message provided.")` and
the `HTTPException(500, ...)` from `ask_groq` — is caught by the
blanket `except Exception as e` of line 154 and re-raised as
`HTTPException(500, str(e))`. -/
def chat (kb : List String) (llm : LLMOracle) (message : Option String) : ChatResponse :=
  match message with
  | none => ChatResponse.httpError 500 (httpExceptionStr 400 "No message provided.")
  | some m =>
    if m = "" then ChatResponse.httpError 500 (httpExceptionStr 400 "No message provided.")
    else
      match ask_groq llm PESTBOT_SYSTEM_PROMPT m (retrieve_relevant_chunks kb m 5) with
      | Except.ok answer => ChatResponse.reply answer
      | Except.error sd => ChatResponse.httpError 500 (httpExceptionStr sd.1 sd.2)

/-- What the `/image` endpoint sends back. -/
inductive ImageResponse
  | response (answer : String)
  | httpError (status : Nat) (detail : String)
deriving DecidableEq

/-- main.py lines 173-182: the triple-quoted prompt f-string of
`analyze_image`, with `encoded[:300]` spliced in. -/
def image_prompt (encoded : String) : String :=
  "\nAnalyze this crop image (base64 encoded). Provide:\n1. Pest or disease name\n2. Severity\n3. Likely cause\n4. Chemical and organic treatment\n5. Prevention advice\n\nIMAGE_DATA (truncated): "
  ++ pyTake 300 encoded ++ "\n"

/-- main.py lines 162-184, the `/image` handler.  `encoding` is the
outcome of decoding/re-encoding the upload (lines 166-169): an error
becomes `HTTPException(400, "Invalid image: ...")`.  Note line 183
calls `ask_groq` with NO `rag_context` argument, so the Python default
`rag_context=""` is used: retrieval is never invoked on this path.  An
`HTTPException` raised by `ask_groq` propagates uncaught. -/
def analyze_image (llm : LLMOracle) (encoding : Except String String) : ImageResponse :=
  match encoding with
  | Except.error e => ImageResponse.httpError 400 ("Invalid image: " ++ e)
  | Except.ok encoded =>
    match ask_groq llm PESTBOT_SYSTEM_PROMPT (image_prompt encoded) "" with
    | Except.ok answer => ImageResponse.response answer
    | Except.error sd => ImageResponse.httpError sd.1 sd.2

/-- What the `/voice` endpoint sends back. -/
inductive VoiceResponse
  | ok (transcript answer : String)
  | httpError (status : Nat) (detail : String)
deriving DecidableEq

/-- main.py lines 190-204, the `/voice` handler.  `transcribed` is the
outcome of speech recognition (lines 193-198): an error becomes
`HTTPException(400, "Voice recognition failed: ...")`.  On success the
transcript is retrieved against and answered (lines 202-204); an
`HTTPException` raised by `ask_groq` propagates uncaught. -/
def voice_chat (kb : List String) (llm : LLMOracle)
    (transcribed : Except String String) : VoiceResponse :=
  match transcribed with
  | Except.error e => VoiceResponse.httpError 400 ("Voice recognition failed: " ++ e)
  | Except.ok text =>
    match ask_groq llm PESTBOT_SYSTEM_PROMPT text (retrieve_relevant_chunks kb text 5) with
    | Except.ok answer => VoiceResponse.ok text answer
    | Except.error sd => VoiceResponse.httpError sd.1 sd.2

/-- An oracle whose answer echoes back the user message it was sent:
used to observe exactly which final prompt a handler hands to the
external call. -/
def echoLLM : LLMOracle := fun _ _ user => Except.ok user

/-- An oracle on which every attempted call raises with message
`"boom"`. -/
def constFailLLM : LLMOracle := fun _ _ _ => Except.error "boom"

/-- Reference definition, following claim C1's words: lower-case the
query and split it on whitespace into words; a Knowledge Line matches
when its lower-cased text contains at least one of those words as a
substring; the result is the matching lines, collected in Knowledge
Base order, joined by a single newline (so the empty string when no
line matches). -/
def retrieveSpec (kb : List String) (query : String) : String :=
  String.intercalate "\n"
    (kb.filter (fun line => (pySplit (pyLower query)).any (fun w => pyIn w (pyLower line))))

/-- The reference definition of `retrieveSpec`, truncated to the first
`limit` matching lines (the amendment claim C1's counterexample
forces). -/
def retrieveSpecLimited (kb : List String) (query : String) (limit : Nat) : String :=
  String.intercalate "\n"
    ((kb.filter (fun line => (pySplit (pyLower query)).any (fun w => pyIn w (pyLower line)))).take limit)

/-! ### Helper lemmas -/

/-- The scan loop equals "take what is still missing from the matching
lines", as long as the accumulator is strictly below the limit. -/
theorem retrieveAux_eq_take (words : List String) (limit : Nat) (kb : List String) :
    ∀ results : List String, results.length < limit →
      retrieveAux words limit results kb =
        results ++ (kb.filter (matchesQuery words)).take (limit - results.length) := by
  induction kb with
  | nil =>
    intro results _
    simp [retrieveAux]
  | cons line rest ih =>
    intro results h
    by_cases hm : matchesQuery words line = true
    · rw [List.filter_cons_of_pos hm]
      by_cases hstop : limit ≤ (results ++ [line]).length
      · have hlen : (results ++ [line]).length = results.length + 1 := by simp
        have h1 : limit - results.length = 1 := by omega
        simp only [retrieveAux, hm, if_true, if_pos hstop, h1, List.take_succ_cons,
          List.take_zero]
      · have hlen : (results ++ [line]).length = results.length + 1 := by simp
        have hlt : (results ++ [line]).length < limit := by omega
        have h2 : limit - results.length = (limit - (results.length + 1)) + 1 := by omega
        simp only [retrieveAux, hm, if_true, if_neg hstop]
        rw [ih (results ++ [line]) hlt, h2, List.take_succ_cons, hlen]
        simp
    · rw [List.filter_cons_of_neg hm]
      have hstop : ¬ limit ≤ results.length := by omega
      simp only [retrieveAux, if_neg hm, if_neg hstop]
      exact ih results h

/-- For a positive limit, the collected lines are the first `limit`
matching lines of the Knowledge Base. -/
theorem retrieve_results_eq_take (kb : List String) (query : String) (limit : Nat)
    (h : 1 ≤ limit) :
    retrieve_results kb query limit =
      (kb.filter (matchesQuery (pySplit (pyLower query)))).take limit := by
  have h0 : ([] : List String).length < limit := by simpa using h
  simpa using retrieveAux_eq_take (pySplit (pyLower query)) limit kb [] h0

/-- Splitting an all-whitespace character list yields no words. -/
theorem pySplitAux_ws (l : List Char) (h : ∀ c ∈ l, c.isWhitespace = true) :
    pySplitAux l [] = [] := by
  induction l with
  | nil => rfl
  | cons c rest ih =>
    have hc : c.isWhitespace = true := h c (by simp)
    simp only [pySplitAux, hc, if_true, List.isEmpty_nil]
    exact ih (fun d hd => h d (by simp [hd]))

/-- Lower-casing moves no character out of the whitespace class (it only
shifts the ASCII letters `A`–`Z`). -/
theorem toLower_of_ws (c : Char) (h : c.isWhitespace = true) : c.toLower = c := by
  have h2 : ((c = ' ' ∨ c = '\t') ∨ c = '\r') ∨ c = '\n' := by
    simpa [Char.isWhitespace, Bool.or_eq_true, decide_eq_true_eq] using h
  rcases h2 with ((rfl | rfl) | rfl) | rfl <;> decide

/-- An all-whitespace query lower-cases to all-whitespace and splits into
zero words. -/
theorem pySplit_pyLower_ws (q : String) (h : q.toList.all Char.isWhitespace = true) :
    pySplit (pyLower q) = [] := by
  have htodo : (pyLower q).toList = q.toList.map Char.toLower := rfl
  unfold pySplit
  rw [htodo]
  apply pySplitAux_ws
  intro c hc
  obtain ⟨d, hd, rfl⟩ := List.mem_map.mp hc
  have hdw : d.isWhitespace = true := by
    have := List.all_eq_true.mp h d hd
    simpa using this
  rw [toLower_of_ws d hdw]
  exact hdw

/-- `retrieve_relevant_chunks` on an all-whitespace (or empty) query is
the empty string: no word can match any line. -/
theorem retrieve_ws_empty (kb : List String) (limit : Nat) (q : String)
    (hl : 1 ≤ limit) (hws : q.toList.all Char.isWhitespace = true) :
    retrieve_relevant_chunks kb q limit = "" := by
  unfold retrieve_relevant_chunks
  rw [retrieve_results_eq_take kb q limit hl, pySplit_pyLower_ws q hws]
  simp [matchesQuery]

/-- The three f-string pieces of the final prompt concatenate to the
single literal layout of claim C6. -/
theorem final_prompt_eq (q c : String) :
    final_prompt q c =
      "User Question:\n" ++ q ++ "\n\nDataset Context:\n" ++ c ++ "\n\nAnswer as Pest Bot:" := by
  apply String.ext
  have e1 : ("\n\nDataset Context:\n" : String).data =
      ("\n\n" : String).data ++ ("Dataset Context:\n" : String).data := rfl
  have e2 : ("\n\nAnswer as Pest Bot:" : String).data =
      ("\n\n" : String).data ++ ("Answer as Pest Bot:" : String).data := rfl
  simp [final_prompt, e1, e2]

/-! ### Claim theorems -/

/-- Claim C1, counterexample: with two matching lines and `limit = 1`,
`retrieve_relevant_chunks` truncates, so it differs from the claim's
reference definition, which joins ALL matching lines. -/
theorem C1_cx_retrieve_truncates :
    retrieve_relevant_chunks ["aphid colony", "aphid attack"] "aphid" 1 ≠
      retrieveSpec ["aphid colony", "aphid attack"] "aphid" := by
  decide

/-- Claim C1 (amended): for every Knowledge Base, query and limit ≥ 1,
`retrieve_relevant_chunks` equals the claim's reference definition
truncated to the first `limit` matching lines: lower-case the query,
split on whitespace, keep the lines whose lower-cased text contains
some query word as a substring, in Knowledge Base order, take the first
`limit` of them, join with a single newline (the empty string when no
line matches). -/
theorem C1_retrieve_eq_spec_limited (kb : List String) (query : String) (limit : Nat)
    (h : 1 ≤ limit) :
    retrieve_relevant_chunks kb query limit = retrieveSpecLimited kb query limit := by
  have hpred : (fun line => (pySplit (pyLower query)).any (fun w => pyIn w (pyLower line)))
      = matchesQuery (pySplit (pyLower query)) := rfl
  unfold retrieve_relevant_chunks retrieveSpecLimited
  rw [hpred, retrieve_results_eq_take kb query limit h]
  cases ht : (kb.filter (matchesQuery (pySplit (pyLower query)))).take limit with
  | nil =>
    simp
    rfl
  | cons a as => simp

/-- Witness for C1 (amended) at a concrete input. -/
theorem C1_witness :
    1 ≤ 5 ∧
    retrieve_relevant_chunks ["aphid colony", "fungus stem low"] "aphid treatment" 5 =
      retrieveSpecLimited ["aphid colony", "fungus stem low"] "aphid treatment" 5 :=
  ⟨by decide, C1_retrieve_eq_spec_limited ["aphid colony", "fungus stem low"] "aphid treatment" 5 (by decide)⟩

/-- Claim C2, counterexample: with `limit = 0` the loop's break check
runs only after the first iteration has already appended a matching
line, so the result holds 1 line, exceeding the limit. -/
theorem C2_cx_limit_zero :
    ¬ ((retrieve_results ["a"] "a" 0).length ≤ 0) ∧
    retrieve_relevant_chunks ["a"] "a" 0 = "a" := by
  exact ⟨by decide, by decide⟩

/-- Claim C2 (amended): for every Knowledge Base, query and limit L ≥ 1,
the number of collected lines never exceeds L, and once L matches have
been collected the scan has stopped: lines appended after the Knowledge
Base prefix that produced the L matches cannot change the result. -/
theorem C2_limit_bound (kb kb2 : List String) (query : String) (limit : Nat)
    (h : 1 ≤ limit) :
    (retrieve_results kb query limit).length ≤ limit ∧
    (limit ≤ (retrieve_results kb query limit).length →
      retrieve_results (kb ++ kb2) query limit = retrieve_results kb query limit) := by
  constructor
  · rw [retrieve_results_eq_take kb query limit h]
    exact List.length_take_le limit _
  · intro hfull
    rw [retrieve_results_eq_take kb query limit h] at hfull ⊢
    rw [retrieve_results_eq_take (kb ++ kb2) query limit h, List.filter_append]
    have hlen : limit ≤ (kb.filter (matchesQuery (pySplit (pyLower query)))).length := by
      rw [List.length_take] at hfull
      omega
    rw [List.take_append_eq_append_take]
    have hz : limit - (kb.filter (matchesQuery (pySplit (pyLower query)))).length = 0 := by
      omega
    simp [hz]

/-- Witness for C2 (amended) at a concrete input. -/
theorem C2_witness :
    1 ≤ 1 ∧
    ((retrieve_results ["aphid colony"] "aphid" 1).length ≤ 1 ∧
      (1 ≤ (retrieve_results ["aphid colony"] "aphid" 1).length →
        retrieve_results (["aphid colony"] ++ ["aphid attack"]) "aphid" 1 =
          retrieve_results ["aphid colony"] "aphid" 1)) :=
  ⟨by decide, C2_limit_bound ["aphid colony"] ["aphid attack"] "aphid" 1 (by decide)⟩

/-- Claim C3: a chat request whose message is missing or empty is
rejected before any retrieval or generation — the result does not
depend on the Knowledge Base or the external call — but the blanket
`except` of the handler re-wraps the intended
`HTTPException(400, "No message provided.")` into a **500** whose
detail merely embeds the 400, so the signal the client sees is a
server-error status, not a client-error one. -/
theorem C3_empty_message_rejected_as_500 (kb : List String) (llm : LLMOracle) :
    chat kb llm none = ChatResponse.httpError 500 "400: No message provided." ∧
    chat kb llm (some "") = ChatResponse.httpError 500 "400: No message provided." := by
  exact ⟨rfl, rfl⟩

set_option maxRecDepth 2000 in
/-- Claim C4, counterexample: a Knowledge Base line ("pesticide dosage
table") matches the image prompt (its word "pest" is a substring), yet
the final prompt the image handler hands to the external call — made
observable through the echo oracle — does not contain that retrieval
result, because `analyze_image` never invokes retrieval and assembles
with the default empty context. -/
theorem C4_cx_image_ignores_retrieval :
    retrieve_relevant_chunks ["pesticide dosage table"] (image_prompt "x") 5 =
      "pesticide dosage table" ∧
    analyze_image echoLLM (Except.ok "x") =
      ImageResponse.response (pyStrip (final_prompt (image_prompt "x") "")) ∧
    pyIn "pesticide dosage table" (pyStrip (final_prompt (image_prompt "x") "")) = false ∧
    ("pesticide dosage table" : String) ≠ "" := by
  exact ⟨by decide, rfl, by decide, by decide⟩

/-- Claim C4 (amended): the chat and voice handlers call retrieval on
their query and pass its result into the prompt assembler before the
external call (observed through the echo oracle, whose answer is
exactly the user prompt the external call received); the image handler
instead assembles its final prompt with the empty context — retrieval
is not consulted on that path. -/
theorem C4_rag_flow (kb : List String) (m t e : String) (hm : m ≠ "") :
    chat kb echoLLM (some m) =
      ChatResponse.reply (pyStrip (final_prompt m (retrieve_relevant_chunks kb m 5))) ∧
    voice_chat kb echoLLM (Except.ok t) =
      VoiceResponse.ok t (pyStrip (final_prompt t (retrieve_relevant_chunks kb t 5))) ∧
    analyze_image echoLLM (Except.ok e) =
      ImageResponse.response (pyStrip (final_prompt (image_prompt e) "")) := by
  refine ⟨?_, rfl, rfl⟩
  simp only [chat, if_neg hm]
  rfl

/-- Witness for C4 (amended) at a concrete input. -/
theorem C4_witness :
    ("aphid" : String) ≠ "" ∧
    (chat ["aphid colony"] echoLLM (some "aphid") =
      ChatResponse.reply
        (pyStrip (final_prompt "aphid" (retrieve_relevant_chunks ["aphid colony"] "aphid" 5))) ∧
    voice_chat ["aphid colony"] echoLLM (Except.ok "fungus") =
      VoiceResponse.ok "fungus"
        (pyStrip (final_prompt "fungus" (retrieve_relevant_chunks ["aphid colony"] "fungus" 5))) ∧
    analyze_image echoLLM (Except.ok "enc") =
      ImageResponse.response (pyStrip (final_prompt (image_prompt "enc") ""))) :=
  ⟨by decide, C4_rag_flow ["aphid colony"] "aphid" "fungus" "enc" (by decide)⟩

/-- Claim C5: the loader turns CSV rows into one Knowledge Line each by
joining fields with a single space in order, and text files into one
Knowledge Line per non-blank stripped line, preserving order — checked
on the claim's own inputs, plus one-line-per-row in general. -/
theorem C5_loader_lines :
    loadDataFile (DataFile.csv [["aphid", "leaf", "high"], ["fungus", "stem", "low"]]) =
      ["aphid leaf high", "fungus stem low"] ∧
    loadDataFile (DataFile.txt "whitefly infestation\n\n  \naphid colony\n") =
      ["whitefly infestation", "aphid colony"] ∧
    (∀ rows : List (List String), (loadDataFile (DataFile.csv rows)).length = rows.length) := by
  refine ⟨by decide, by decide, ?_⟩
  intro rows
  simp [loadDataFile]

/-- Claim C6: the final prompt handed to the external generation call is
exactly the literal header "User Question:" with the query, then
"Dataset Context:" with the retrieval context, then the closing
directive "Answer as Pest Bot:"; the persona travels separately as the
system-level message. -/
theorem C6_prompt_layout (llm : LLMOracle) (q c : String) :
    ask_groq llm PESTBOT_SYSTEM_PROMPT q c =
      (match llm 0 PESTBOT_SYSTEM_PROMPT
          ("User Question:\n" ++ q ++ "\n\nDataset Context:\n" ++ c ++ "\n\nAnswer as Pest Bot:") with
        | Except.ok ans => Except.ok (pyStrip ans)
        | Except.error e => Except.error (500, "Groq API error: " ++ e)) ∧
    groq_messages PESTBOT_SYSTEM_PROMPT (final_prompt q c) =
      [("system", PESTBOT_SYSTEM_PROMPT), ("user", final_prompt q c)] := by
  refine ⟨?_, rfl⟩
  unfold ask_groq
  rw [final_prompt_eq]

/-- Claim C7: a missing `data` folder at startup yields an empty
Knowledge Base and the process still starts (no startup failure),
whatever reference files would otherwise have been present. -/
theorem C7_missing_dir_degrades (key : String) (files : List DataFile) :
    startup (some key) false files = Except.ok [] ∧ loadRAG false files = [] := by
  exact ⟨rfl, rfl⟩

/-- Claim C8: when the external call raises, `ask_groq` surfaces an
error value distinguishable from every successful answer, never
substitutes answer text, and never retries — its result is fully
determined by the outcome of the one attempted call (attempt 0). -/
theorem C8_generation_failure_surfaced (llm : LLMOracle) (sys q c e : String)
    (h : llm 0 sys (final_prompt q c) = Except.error e) :
    ask_groq llm sys q c = Except.error (500, "Groq API error: " ++ e) ∧
    (∀ a, ask_groq llm sys q c ≠ Except.ok a) ∧
    (∀ llm2 : LLMOracle, llm2 0 sys (final_prompt q c) = llm 0 sys (final_prompt q c) →
      ask_groq llm2 sys q c = ask_groq llm sys q c) := by
  refine ⟨?_, ?_, ?_⟩
  · unfold ask_groq
    rw [h]
  · intro a hcontra
    unfold ask_groq at hcontra
    rw [h] at hcontra
    exact Except.noConfusion hcontra
  · intro llm2 h2
    unfold ask_groq
    rw [h2]

/-- Witness for C8 at a concrete input. -/
theorem C8_witness :
    constFailLLM 0 "sys" (final_prompt "q" "c") = Except.error "boom" ∧
    (ask_groq constFailLLM "sys" "q" "c" = Except.error (500, "Groq API error: " ++ "boom") ∧
    (∀ a, ask_groq constFailLLM "sys" "q" "c" ≠ Except.ok a) ∧
    (∀ llm2 : LLMOracle,
        llm2 0 "sys" (final_prompt "q" "c") = constFailLLM 0 "sys" (final_prompt "q" "c") →
      ask_groq llm2 "sys" "q" "c" = ask_groq constFailLLM "sys" "q" "c")) :=
  ⟨rfl, C8_generation_failure_surfaced constFailLLM "sys" "q" "c" "boom" rfl⟩

/-- Claim C9: `retrieve_relevant_chunks` is deterministic — identical
Knowledge Base, identical query and identical limit always give the
identical context string. -/
theorem C9_retrieve_deterministic (kb1 kb2 : List String) (q1 q2 : String) (l1 l2 : Nat)
    (hkb : kb1 = kb2) (hq : q1 = q2) (hl : l1 = l2) :
    retrieve_relevant_chunks kb1 q1 l1 = retrieve_relevant_chunks kb2 q2 l2 := by
  subst hkb
  subst hq
  subst hl
  rfl

/-- Witness for C9 at a concrete input. -/
theorem C9_witness :
    retrieve_relevant_chunks ["aphid colony"] "pest" 5 =
      retrieve_relevant_chunks ["aphid colony"] "pest" 5 :=
  C9_retrieve_deterministic ["aphid colony"] ["aphid colony"] "pest" "pest" 5 5 rfl rfl rfl

/-- Claim C10: a query that is empty or all-whitespace splits into zero
words, so retrieval returns the empty string for every Knowledge Base
and every limit ≥ 1; yet a non-empty all-whitespace message passes the
chat handler's emptiness check and proceeds to generation with empty
context (the echo oracle exposes the final prompt it was sent). -/
theorem C10_whitespace_query (kb : List String) (limit : Nat) (q : String)
    (hl : 1 ≤ limit) (hws : q.toList.all Char.isWhitespace = true) :
    retrieve_relevant_chunks kb q limit = "" ∧
    (q ≠ "" →
      chat kb echoLLM (some q) = ChatResponse.reply (pyStrip (final_prompt q ""))) := by
  refine ⟨retrieve_ws_empty kb limit q hl hws, ?_⟩
  intro hne
  simp only [chat, if_neg hne]
  rw [retrieve_ws_empty kb 5 q (by decide) hws]
  rfl

/-- Witness for C10 at a concrete input. -/
theorem C10_witness :
    1 ≤ 2 ∧ ("   " : String).toList.all Char.isWhitespace = true ∧
    (retrieve_relevant_chunks ["aphid colony"] "   " 2 = "" ∧
      (("   " : String) ≠ "" →
        chat ["aphid colony"] echoLLM (some "   ") =
          ChatResponse.reply (pyStrip (final_prompt "   " "")))) :=
  ⟨by decide, by decide, C10_whitespace_query ["aphid colony"] 2 "   " (by decide) (by decide)⟩

end PestBot
